import Mathlib

/-!
Shallow embedding of `ing2qif.py`: transaction classification, memo
extraction, amount formatting, record construction, and row-range
selection, with proofs about their behavior.

Python strings are modelled as lists of characters (`Text`); functions
that can raise are modelled in `Except`.
-/

namespace Ing2Qif

/-- Python text modelled as a list of characters. -/
abbrev Text := List Char

/-- The characters of a string literal. -/
def txt (s : String) : Text := s.data

/-- Python substring search (the index computed by `str.index` and
`str.find`): the first position at which `needle` occurs in the
haystack, `none` when it does not occur. -/
def findSub (needle : Text) : Text → Option Nat
  | [] => if needle.isEmpty then some 0 else none
  | c :: rest =>
    if needle.isPrefixOf (c :: rest) then some 0
    else (findSub needle rest).map (· + 1)

/-- Python `needle in haystack`. -/
def containsSub (needle s : Text) : Bool := (findSub needle s).isSome

/-- Python slice `s[a:b]` for nonnegative bounds. -/
def pySlice (s : Text) (a b : Nat) : Text := (s.drop a).take (b - a)

/-- ASCII whitespace as stripped by Python `str.strip()`. -/
def pyIsSpace (c : Char) : Bool :=
  c = ' ' || c = '\t' || c = '\n' || c = '\r' || c = '\x0b' || c = '\x0c'

/-- Python `s.strip()`. -/
def stripText (s : Text) : Text :=
  ((s.dropWhile pyIsSpace).reverse.dropWhile pyIsSpace).reverse

/-- The exceptions the memo code can raise: `raise Exception(mededelingen,
omschrijving)` in `QifEntry._memo_incasso`, and an uncaught `ValueError`
from `str.index` when a searched marker is absent. -/
inductive PyErr where
  | exc (mededelingen omschrijving : Text)
  | valueError
  deriving DecidableEq

/-- The guard of `QifEntry._memo_incasso` (line 97):
`omschrijving.startswith('SEPA Incasso') or mededelingen.startswith('SEPA Incasso')`. -/
def sepaPre (mededelingen omschrijving : Text) : Bool :=
  (txt "SEPA Incasso").isPrefixOf omschrijving || (txt "SEPA Incasso").isPrefixOf mededelingen

/-- The prefix test of `QifEntry._memo_geldautomaat` (lines 88-90). -/
def atmPrefixHit (omschrijving : Text) : Bool :=
  (txt "ING>").isPrefixOf omschrijving ||
    (txt "ING BANK>").isPrefixOf omschrijving ||
    (txt "OPL. CHIPKNIP").isPrefixOf omschrijving

/-- `QifEntry._memo_geldautomaat`: full `omschrijving` when it carries an
ATM prefix, otherwise the first 32 characters of `mededelingen`. -/
def memo_geldautomaat (mededelingen omschrijving : Text) : Except PyErr (Option Text) :=
  if atmPrefixHit omschrijving then .ok (some omschrijving)
  else .ok (some (mededelingen.take 32))

/-- `QifEntry._memo_incasso`: the `try` wraps only the `index('Naam: ')`
call, whose failure is re-raised as `Exception(mededelingen, omschrijving)`;
the later `index('Kenmerk: ')` is outside the `try`, so its failure is an
uncaught `ValueError`. -/
def memo_incasso (mededelingen omschrijving : Text) : Except PyErr (Option Text) :=
  if sepaPre mededelingen omschrijving then
    match findSub (txt "Naam: ") mededelingen with
    | none => .error (.exc mededelingen omschrijving)
    | some i =>
      match findSub (txt "Kenmerk: ") mededelingen with
      | none => .error .valueError
      | some j => .ok (some (pySlice mededelingen (i + 6) j))
  else .ok none

/-- `QifEntry._memo_internetbankieren`: membership is tested for
"Omschrijving:" without trailing space, but the index taken is of
"Omschrijving: " with the space; every `ValueError` is caught and turned
into `None`. -/
def memo_internetbankieren (mededelingen omschrijving : Text) : Except PyErr (Option Text) :=
  match findSub (txt "Naam: ") mededelingen with
  | none => .ok none
  | some i =>
    if containsSub (txt "Omschrijving:") mededelingen then
      match findSub (txt "Omschrijving: ") mededelingen with
      | none => .ok none
      | some j => .ok (some (pySlice mededelingen (i + 6) j))
    else
      match findSub (txt "IBAN: ") mededelingen with
      | none => .ok none
      | some j => .ok (some (pySlice mededelingen (i + 6) j))

/-- `QifEntry._memo_diversen`: first 64 characters of `mededelingen`. -/
def memo_diversen (mededelingen omschrijving : Text) : Except PyErr (Option Text) :=
  .ok (some (mededelingen.take 64))

/-- `QifEntry._memo_verzamelbetaling`: guarded by `'Naam: ' in mededelingen`
(the same occurrence `index` then finds); `index('Kenmerk: ')` is unguarded,
so its failure is an uncaught `ValueError`. -/
def memo_verzamelbetaling (mededelingen omschrijving : Text) : Except PyErr (Option Text) :=
  match findSub (txt "Naam: ") mededelingen with
  | none => .ok none
  | some i =>
    match findSub (txt "Kenmerk: ") mededelingen with
    | none => .error .valueError
    | some j => .ok (some (pySlice mededelingen (i + 6) j))

/-- The strategy dictionary of `QifEntry._memo` (lines 136-144); a kind
absent from the table is the `KeyError` that `_memo` catches. -/
def memo_dispatch (kind : Text) : Option (Text → Text → Except PyErr (Option Text)) :=
  if kind = txt "Diversen" then some memo_diversen
  else if kind = txt "Betaalautomaat" then some memo_geldautomaat
  else if kind = txt "Geldautomaat" then some memo_geldautomaat
  else if kind = txt "Incasso" then some memo_incasso
  else if kind = txt "Internetbankieren" then some memo_internetbankieren
  else if kind = txt "Overschrijving" then some memo_internetbankieren
  else if kind = txt "Verzamelbetaling" then some memo_verzamelbetaling
  else none

/-- `QifEntry._entry_type`: the category table; `KeyError` on an unknown
kind is caught and becomes `None`. -/
def entry_type (kind : Text) : Option Text :=
  if kind = txt "Geldautomaat" then some (txt "ATM")
  else if kind = txt "Internetbankieren" then some (txt "Transfer")
  else if kind = txt "Incasso" then some (txt "Transfer")
  else if kind = txt "Verzamelbetaling" then some (txt "Transfer")
  else if kind = txt "Betaalautomaat" then some (txt "ATM")
  else if kind = txt "Storting" then some (txt "Deposit")
  else none

/-- The `try`/`except KeyError` block of `QifEntry._memo`: look the kind up
in the table (an unknown kind leaves `memo = None`), then run the strategy;
a strategy exception propagates. -/
def strategyStep (kind mededelingen omschrijving : Text) : Except PyErr (Option Text) :=
  match memo_dispatch kind with
  | none => .ok none
  | some f => f mededelingen omschrijving

/-- The memo before category prefixing: the `finally` block of
`QifEntry._memo` replaces a `None` strategy result by the default
`"%s %s" % (mededelingen, omschrijving)`. -/
def memoBody (kind mededelingen omschrijving : Text) : Except PyErr Text :=
  match strategyStep kind mededelingen omschrijving with
  | .error e => .error e
  | .ok r => .ok (r.getD (mededelingen ++ ' ' :: omschrijving))

/-- `QifEntry._memo` (lines 125-154): the body, then `"%s %s"` prefixing by
the entry type when one exists, else `memo.strip()`. -/
def pyMemo (kind mededelingen omschrijving : Text) : Except PyErr Text :=
  match memoBody kind mededelingen omschrijving with
  | .error e => .error e
  | .ok memo =>
    match entry_type kind with
    | some t => .ok (t ++ ' ' :: memo)
    | none => .ok (stripText memo)

/-- `Entry._clean_up`: `self._data['Bedrag (EUR)'].replace(',', '.')`;
replacing the one-character pattern "," by "." is a character-wise map. -/
def normalizeAmount (raw : Text) : Text :=
  raw.map (fun c => if c = ',' then '.' else c)

/-- `QifEntry._amount_format`: "+" before the cleaned amount when the
"Af Bij" field equals "Bij", otherwise "-". -/
def amount_format (afBij amount : Text) : Text :=
  if afBij = txt "Bij" then '+' :: amount else '-' :: amount

/-- Lookup in a raw row, Python `dict.get`: `none` for a missing key. -/
def rowGet (row : List (String × Text)) (k : String) : Option Text :=
  (row.find? (fun p => p.1 == k)).map Prod.snd

/-- The `Entry` value object: its `_data` dictionary after `_clean_up`. -/
structure Entry where
  data : List (String × Text)
  deriving DecidableEq

/-- `Entry.__init__` with `_clean_up`: the raw row indexed with
`self._data['Bedrag (EUR)']` (plain `dict` subscription), which raises
`KeyError` when the column is absent — modelled as `none`; on success the
"amount" key is stored. -/
def mkEntry (row : List (String × Text)) : Option Entry :=
  match rowGet row "Bedrag (EUR)" with
  | none => none
  | some raw => some ⟨("amount", normalizeAmount raw) :: row⟩

/-- `Entry.__getattr__` / `Entry.__getitem__`: `self._data.get(item)`. -/
def Entry.attr (e : Entry) (k : String) : Option Text := rowGet e.data k

/-- Python truthiness of the optional `--number` argument:
`None` and `0` are falsy. -/
def numTruthy : Option Int → Bool
  | none => false
  | some n => n ≠ 0

/-- The row-selection loop of `main` (lines 183-187): rows are counted
from `c`; a row with counter at least `start` is added, and after adding,
the loop breaks when `number` is truthy and the counter exceeds
`start + number - 1`. -/
def mainSelect {α : Type} (start : Int) (number : Option Int) : Int → List α → List α
  | _, [] => []
  | c, e :: rest =>
    if start ≤ c then
      e ::
        (if numTruthy number = true ∧ start + number.getD 0 - 1 < c then []
         else mainSelect start number (c + 1) rest)
    else mainSelect start number (c + 1) rest

/-! ## Helper lemmas about the embedding -/

lemma dispatch_diversen : memo_dispatch (txt "Diversen") = some memo_diversen := rfl

lemma dispatch_betaalautomaat :
    memo_dispatch (txt "Betaalautomaat") = some memo_geldautomaat := rfl

lemma dispatch_geldautomaat :
    memo_dispatch (txt "Geldautomaat") = some memo_geldautomaat := rfl

lemma dispatch_incasso : memo_dispatch (txt "Incasso") = some memo_incasso := rfl

lemma dispatch_internetbankieren :
    memo_dispatch (txt "Internetbankieren") = some memo_internetbankieren := rfl

lemma dispatch_overschrijving :
    memo_dispatch (txt "Overschrijving") = some memo_internetbankieren := rfl

lemma dispatch_verzamelbetaling :
    memo_dispatch (txt "Verzamelbetaling") = some memo_verzamelbetaling := rfl

lemma dispatch_unknown (kind : Text) (h1 : kind ≠ txt "Diversen")
    (h2 : kind ≠ txt "Betaalautomaat") (h3 : kind ≠ txt "Geldautomaat")
    (h4 : kind ≠ txt "Incasso") (h5 : kind ≠ txt "Internetbankieren")
    (h6 : kind ≠ txt "Overschrijving") (h7 : kind ≠ txt "Verzamelbetaling") :
    memo_dispatch kind = none := by
  unfold memo_dispatch
  rw [if_neg h1, if_neg h2, if_neg h3, if_neg h4, if_neg h5, if_neg h6, if_neg h7]

lemma memo_geldautomaat_no_error (m o : Text) : ∃ r, memo_geldautomaat m o = .ok r := by
  unfold memo_geldautomaat
  split
  · exact ⟨_, rfl⟩
  · exact ⟨_, rfl⟩

lemma memo_diversen_no_error (m o : Text) : ∃ r, memo_diversen m o = .ok r := ⟨_, rfl⟩

lemma memo_internetbankieren_no_error (m o : Text) :
    ∃ r, memo_internetbankieren m o = .ok r := by
  unfold memo_internetbankieren
  rcases findSub (txt "Naam: ") m with _ | i
  · exact ⟨_, rfl⟩
  · by_cases hc : containsSub (txt "Omschrijving:") m = true
    · simp only [if_pos hc]
      rcases findSub (txt "Omschrijving: ") m with _ | j
      · exact ⟨_, rfl⟩
      · exact ⟨_, rfl⟩
    · simp only [if_neg hc]
      rcases findSub (txt "IBAN: ") m with _ | j
      · exact ⟨_, rfl⟩
      · exact ⟨_, rfl⟩

lemma memo_incasso_error_iff (m o : Text) :
    (∃ e, memo_incasso m o = .error e) ↔
      (sepaPre m o = true ∧ findSub (txt "Naam: ") m = none)
      ∨ (sepaPre m o = true ∧ (findSub (txt "Naam: ") m).isSome = true
          ∧ findSub (txt "Kenmerk: ") m = none) := by
  unfold memo_incasso
  rcases hp : sepaPre m o with _ | _
  · simp [hp]
  · rcases hn : findSub (txt "Naam: ") m with _ | i
    · simp [hn]
    · rcases hk : findSub (txt "Kenmerk: ") m with _ | j
      · simp [hn, hk]
      · simp [hn, hk]

lemma memo_verzamelbetaling_error_iff (m o : Text) :
    (∃ e, memo_verzamelbetaling m o = .error e) ↔
      ((findSub (txt "Naam: ") m).isSome = true ∧ findSub (txt "Kenmerk: ") m = none) := by
  unfold memo_verzamelbetaling
  rcases hn : findSub (txt "Naam: ") m with _ | i
  · simp [hn]
  · rcases hk : findSub (txt "Kenmerk: ") m with _ | j
    · simp [hn, hk]
    · simp [hn, hk]

lemma strategyStep_error_iff (kind m o : Text) :
    (∃ e, strategyStep kind m o = .error e) ↔
      (kind = txt "Incasso" ∧ sepaPre m o = true ∧ findSub (txt "Naam: ") m = none)
      ∨ (kind = txt "Incasso" ∧ sepaPre m o = true
          ∧ (findSub (txt "Naam: ") m).isSome = true ∧ findSub (txt "Kenmerk: ") m = none)
      ∨ (kind = txt "Verzamelbetaling"
          ∧ (findSub (txt "Naam: ") m).isSome = true ∧ findSub (txt "Kenmerk: ") m = none) := by
  by_cases h4 : kind = txt "Incasso"
  · subst h4
    have hs : strategyStep (txt "Incasso") m o = memo_incasso m o := by
      unfold strategyStep; rw [dispatch_incasso]
    have hne : (txt "Incasso" : Text) ≠ txt "Verzamelbetaling" := by decide
    rw [hs, memo_incasso_error_iff]
    constructor
    · rintro (⟨hp, hn⟩ | ⟨hp, hss, hk⟩)
      · exact Or.inl ⟨rfl, hp, hn⟩
      · exact Or.inr (Or.inl ⟨rfl, hp, hss, hk⟩)
    · rintro (⟨-, hp, hn⟩ | ⟨-, hp, hss, hk⟩ | ⟨hbad, -⟩)
      · exact Or.inl ⟨hp, hn⟩
      · exact Or.inr ⟨hp, hss, hk⟩
      · exact absurd hbad hne
  · by_cases h7 : kind = txt "Verzamelbetaling"
    · subst h7
      have hs : strategyStep (txt "Verzamelbetaling") m o = memo_verzamelbetaling m o := by
        unfold strategyStep; rw [dispatch_verzamelbetaling]
      have hne : (txt "Verzamelbetaling" : Text) ≠ txt "Incasso" := by decide
      rw [hs, memo_verzamelbetaling_error_iff]
      constructor
      · rintro ⟨hss, hk⟩
        exact Or.inr (Or.inr ⟨rfl, hss, hk⟩)
      · rintro (⟨hbad, -⟩ | ⟨hbad, -⟩ | ⟨-, hss, hk⟩)
        · exact absurd hbad hne
        · exact absurd hbad hne
        · exact ⟨hss, hk⟩
    · have hnoerr : ∃ r, strategyStep kind m o = .ok r := by
        unfold strategyStep
        by_cases h1 : kind = txt "Diversen"
        · rw [h1, dispatch_diversen]; exact memo_diversen_no_error m o
        · by_cases h2 : kind = txt "Betaalautomaat"
          · rw [h2, dispatch_betaalautomaat]; exact memo_geldautomaat_no_error m o
          · by_cases h3 : kind = txt "Geldautomaat"
            · rw [h3, dispatch_geldautomaat]; exact memo_geldautomaat_no_error m o
            · by_cases h5 : kind = txt "Internetbankieren"
              · rw [h5, dispatch_internetbankieren]
                exact memo_internetbankieren_no_error m o
              · by_cases h6 : kind = txt "Overschrijving"
                · rw [h6, dispatch_overschrijving]
                  exact memo_internetbankieren_no_error m o
                · rw [dispatch_unknown kind h1 h2 h3 h4 h5 h6 h7]
                  exact ⟨none, rfl⟩
      obtain ⟨r, hr⟩ := hnoerr
      apply iff_of_false
      · rintro ⟨e, he⟩
        rw [hr] at he
        exact Except.noConfusion he
      · rintro (⟨hbad, -⟩ | ⟨hbad, -⟩ | ⟨hbad, -⟩)
        · exact absurd hbad h4
        · exact absurd hbad h4
        · exact absurd hbad h7

lemma memoBody_error_iff (kind m o : Text) :
    (∃ e, memoBody kind m o = .error e) ↔ (∃ e, strategyStep kind m o = .error e) := by
  unfold memoBody
  rcases h : strategyStep kind m o with e2 | r
  · exact iff_of_true ⟨e2, rfl⟩ ⟨e2, rfl⟩
  · apply iff_of_false
    · rintro ⟨e, he⟩
      simp at he
    · rintro ⟨e, he⟩
      exact Except.noConfusion he

lemma pyMemo_error_iff_body (kind m o : Text) :
    (∃ e, pyMemo kind m o = .error e) ↔ (∃ e, memoBody kind m o = .error e) := by
  unfold pyMemo
  rcases h : memoBody kind m o with e2 | r
  · exact iff_of_true ⟨e2, rfl⟩ ⟨e2, rfl⟩
  · apply iff_of_false
    · rintro ⟨e, he⟩
      rcases ht : entry_type kind with _ | t
      · simp [ht] at he
      · simp [ht] at he
    · rintro ⟨e, he⟩
      exact Except.noConfusion he

lemma mainSelect_falsy {α : Type} (start : Int) (number : Option Int)
    (hf : numTruthy number = false) :
    ∀ (l : List α) (c : Int), mainSelect start number c l = l.drop (start - c).toNat := by
  intro l
  induction l with
  | nil => intro c; simp [mainSelect]
  | cons e rest ih =>
    intro c
    simp only [mainSelect]
    by_cases h : start ≤ c
    · rw [if_pos h]
      have hbrk : ¬ (numTruthy number = true ∧ start + number.getD 0 - 1 < c) := by
        rintro ⟨hb, -⟩
        rw [hf] at hb
        exact Bool.false_ne_true hb
      rw [if_neg hbrk, ih]
      have h1 : (start - c).toNat = 0 := by omega
      have h2 : (start - (c + 1)).toNat = 0 := by omega
      rw [h1, h2]
      rfl
    · rw [if_neg h, ih]
      have h3 : (start - c).toNat = (start - (c + 1)).toNat + 1 := by omega
      rw [h3]
      rfl

/-! ## The claims -/

/-- C1 (code bug): with 5 input rows, `start = 3` and `number = 2`, `main`
emits rows 3, 4 AND 5 — three entries, not the two its own `--number` help
text ("The number of statements to convert") promises: the break test
`c > start + number - 1` runs only after the entry has been added, one
iteration too late. -/
theorem mainSelect_at_start3_number2_five_rows :
    mainSelect 3 (some 2) 1 [1, 2, 3, 4, 5] = [3, 4, 5] := rfl

/-- C10 (confirmed): a configured count of 0 is treated as no limit at all,
exactly like an unset count: the break tests the truthiness of `number`, so
for `number = 0` or `number = None` every entry with 1-based index at least
`start` is included until the input ends. -/
theorem mainSelect_zero_number_unlimited {α : Type} (start : Int) (l : List α) :
    mainSelect start (some 0) 1 l = l.drop (start - 1).toNat
    ∧ mainSelect start none 1 l = l.drop (start - 1).toNat :=
  ⟨mainSelect_falsy start (some 0) rfl l 1, mainSelect_falsy start none rfl l 1⟩

/-- C6 (confirmed): the classifier maps "Geldautomaat" and "Betaalautomaat"
to ATM, "Internetbankieren", "Incasso" and "Verzamelbetaling" to Transfer,
"Storting" to Deposit, and every other kind string to no category, never
failing. -/
theorem entry_type_classification (kind : Text) :
    ((kind = txt "Geldautomaat" ∨ kind = txt "Betaalautomaat") →
        entry_type kind = some (txt "ATM"))
    ∧ ((kind = txt "Internetbankieren" ∨ kind = txt "Incasso"
          ∨ kind = txt "Verzamelbetaling") →
        entry_type kind = some (txt "Transfer"))
    ∧ (kind = txt "Storting" → entry_type kind = some (txt "Deposit"))
    ∧ (kind ≠ txt "Geldautomaat" → kind ≠ txt "Internetbankieren" →
        kind ≠ txt "Incasso" → kind ≠ txt "Verzamelbetaling" →
        kind ≠ txt "Betaalautomaat" → kind ≠ txt "Storting" →
        entry_type kind = none) := by
  refine ⟨?_, ?_, ?_, ?_⟩
  · rintro (rfl | rfl) <;> rfl
  · rintro (rfl | rfl | rfl) <;> rfl
  · rintro rfl; rfl
  · intro h1 h2 h3 h4 h5 h6
    unfold entry_type
    rw [if_neg h1, if_neg h2, if_neg h3, if_neg h4, if_neg h5, if_neg h6]

/-- Witness for the classifier theorem at the kind "Storting". -/
theorem entry_type_classification_witness :
    entry_type (txt "Storting") = some (txt "Deposit") :=
  (entry_type_classification (txt "Storting")).2.2.1 rfl

/-- C7 (confirmed): when the classifier yields a category, the final memo is
the category label, one space, and the strategy's memo body; with no
category, the final memo is the body with surrounding whitespace stripped. -/
theorem memo_category_postprocessing (kind m o body cat : Text) :
    (entry_type kind = some cat → memoBody kind m o = .ok body →
        pyMemo kind m o = .ok (cat ++ ' ' :: body))
    ∧ (entry_type kind = none → memoBody kind m o = .ok body →
        pyMemo kind m o = .ok (stripText body)) := by
  constructor
  · intro ht hb
    simp only [pyMemo, hb, ht]
  · intro ht hb
    simp only [pyMemo, hb, ht]

/-- Witness: kind "Storting" (category Deposit) with fields "a" and "b"
gives the final memo "Deposit a b". -/
theorem memo_category_postprocessing_witness :
    pyMemo (txt "Storting") (txt "a") (txt "b") = Except.ok (txt "Deposit a b") := by
  have h := (memo_category_postprocessing (txt "Storting") (txt "a") (txt "b")
      (txt "a b") (txt "Deposit")).1 rfl rfl
  exact h.trans (by rfl)

/-- C5 (confirmed): both ATM kinds dispatch to `_memo_geldautomaat`, whose
memo is the full counterparty text when it starts with "ING>", "ING BANK>"
or "OPL. CHIPKNIP", and otherwise the first 32 characters of the
narrative. -/
theorem memo_geldautomaat_spec (kind m o : Text)
    (hk : kind = txt "Geldautomaat" ∨ kind = txt "Betaalautomaat") :
    memo_dispatch kind = some memo_geldautomaat
    ∧ (atmPrefixHit o = true → memo_geldautomaat m o = .ok (some o))
    ∧ (atmPrefixHit o = false → memo_geldautomaat m o = .ok (some (m.take 32))) := by
  refine ⟨?_, fun h => ?_, fun h => ?_⟩
  · rcases hk with rfl | rfl
    · exact dispatch_geldautomaat
    · exact dispatch_betaalautomaat
  · unfold memo_geldautomaat
    rw [if_pos h]
  · unfold memo_geldautomaat
    rw [if_neg (by simp [h])]

/-- Witness: counterparty text "ING> foo" is returned whole. -/
theorem memo_geldautomaat_spec_witness :
    memo_geldautomaat (txt "bar") (txt "ING> foo") = Except.ok (some (txt "ING> foo")) :=
  (memo_geldautomaat_spec (txt "Geldautomaat") (txt "bar") (txt "ING> foo")
    (Or.inl rfl)).2.1 (by decide)

/-- C9 (confirmed): amount normalization replaces every comma by a period
and changes nothing else (same length, pointwise identity off commas), and
the sign is "+" exactly when the "Af Bij" field equals "Bij", "-" for every
other direction value. -/
theorem amount_formatting_spec (raw dir amt : Text) :
    (normalizeAmount raw).length = raw.length
    ∧ (∀ k : Nat, (normalizeAmount raw)[k]? =
        (raw[k]?).map (fun c => if c = ',' then '.' else c))
    ∧ (dir = txt "Bij" → amount_format dir amt = '+' :: amt)
    ∧ (dir ≠ txt "Bij" → amount_format dir amt = '-' :: amt) := by
  refine ⟨by simp [normalizeAmount], fun k => ?_, fun h => ?_, fun h => ?_⟩
  · simp [normalizeAmount, List.getElem?_map]
  · unfold amount_format
    rw [if_pos h]
  · unfold amount_format
    rw [if_neg h]

/-- Witness: direction "Bij" with raw amount "1.234,56" gives the signed
amount "+1.234.56". -/
theorem amount_formatting_spec_witness :
    amount_format (txt "Bij") (normalizeAmount (txt "1.234,56")) = txt "+1.234.56" := by
  have h := (amount_formatting_spec (txt "1.234,56") (txt "Bij")
      (normalizeAmount (txt "1.234,56"))).2.2.1 rfl
  exact h.trans (by rfl)

/-- C3 counterexample: a raw row without the "Bedrag (EUR)" column makes
`Entry` construction itself fault (`KeyError` in `_clean_up`), so not every
row can be turned into a record value object. -/
theorem mkEntry_faults_without_amount_column :
    mkEntry [("Datum", txt "20140101")] = none := rfl

/-- C3 (amended): attribute-style access on a constructed record resolves
missing keys to an absent value rather than faulting; but construction
itself reads "Bedrag (EUR)" with a faulting dictionary subscript, so it
succeeds only when that column is present and faults when it is absent. -/
theorem entry_construction_and_access (row : List (String × Text)) (raw : Text) :
    (rowGet row "Bedrag (EUR)" = none → mkEntry row = none)
    ∧ (rowGet row "Bedrag (EUR)" = some raw →
        ∃ en, mkEntry row = some en ∧
          ∀ k, k ≠ "amount" → (∀ p ∈ row, p.1 ≠ k) → Entry.attr en k = none) := by
  constructor
  · intro h
    unfold mkEntry
    rw [h]
  · intro h
    refine ⟨⟨("amount", normalizeAmount raw) :: row⟩, by unfold mkEntry; rw [h], ?_⟩
    intro k hk hrow
    unfold Entry.attr rowGet
    have h1 : (("amount", normalizeAmount raw) :: row).find? (fun p => p.1 == k) = none := by
      rw [List.find?_eq_none]
      intro x hx
      simp only [List.mem_cons] at hx
      rcases hx with rfl | hx
      · simp only [beq_iff_eq]
        exact fun he => hk he.symm
      · simp only [beq_iff_eq]
        exact hrow x hx
    rw [h1]
    rfl

/-- Witness: a row holding only the amount column constructs, and access to
the absent "Datum" column yields the absent value. -/
theorem entry_construction_and_access_witness :
    ∃ en, mkEntry [("Bedrag (EUR)", txt "1,5")] = some en
      ∧ Entry.attr en "Datum" = none := by
  obtain ⟨en, he, ha⟩ :=
    (entry_construction_and_access [("Bedrag (EUR)", txt "1,5")] (txt "1,5")).2 rfl
  exact ⟨en, he, ha "Datum" (by decide) (by decide)⟩

/-- C2 counterexample: a Verzamelbetaling record whose narrative contains
"Naam: " but no "Kenmerk: " makes processing raise (an uncaught
`ValueError` from `index('Kenmerk: ')` on line 122), even though this is
not the Incasso malformed-narrative case: "Naam: " is present and the
"SEPA Incasso" precondition is not matched. -/
theorem pyMemo_raises_outside_incasso_malformed :
    pyMemo (txt "Verzamelbetaling") (txt "Naam: X") [] = Except.error PyErr.valueError
    ∧ containsSub (txt "Naam: ") (txt "Naam: X") = true
    ∧ sepaPre (txt "Naam: X") [] = false :=
  ⟨rfl, rfl, rfl⟩

/-- C2 (amended): over records with their text fields present, processing a
record raises if and only if: the kind is "Incasso", the "SEPA Incasso"
precondition matched and "Naam: " is absent from the narrative (the
malformed-narrative `Exception` carrying both raw fields); or the kind is
"Incasso", the precondition matched, "Naam: " is present but "Kenmerk: " is
absent (uncaught `ValueError`); or the kind is "Verzamelbetaling" with
"Naam: " present but "Kenmerk: " absent (uncaught `ValueError`). Every
other condition — unknown kind, unmet strategy precondition, missing end
marker in the Internetbankieren strategy — is absorbed with a deterministic
fallback. -/
theorem pyMemo_error_characterization (kind m o : Text) :
    (∃ e, pyMemo kind m o = Except.error e) ↔
      (kind = txt "Incasso" ∧ sepaPre m o = true ∧ findSub (txt "Naam: ") m = none)
      ∨ (kind = txt "Incasso" ∧ sepaPre m o = true
          ∧ (findSub (txt "Naam: ") m).isSome = true ∧ findSub (txt "Kenmerk: ") m = none)
      ∨ (kind = txt "Verzamelbetaling"
          ∧ (findSub (txt "Naam: ") m).isSome = true ∧ findSub (txt "Kenmerk: ") m = none) := by
  rw [pyMemo_error_iff_body, memoBody_error_iff, strategyStep_error_iff]

/-- C4 (confirmed): the "Incasso" kind dispatches to `_memo_incasso`, which
declines (falls back to the Default memo, prefixed with "Transfer") when
neither field starts with "SEPA Incasso"; raises the malformed-record error
carrying both raw fields when the precondition matched but "Naam: " is
absent; and otherwise extracts the narrative text strictly between the end
of "Naam: " and the start of "Kenmerk: ". -/
theorem memo_incasso_spec (m o : Text) :
    memo_dispatch (txt "Incasso") = some memo_incasso
    ∧ (sepaPre m o = false →
        memo_incasso m o = .ok none
        ∧ pyMemo (txt "Incasso") m o = .ok (txt "Transfer" ++ ' ' :: (m ++ ' ' :: o)))
    ∧ (sepaPre m o = true → findSub (txt "Naam: ") m = none →
        memo_incasso m o = .error (.exc m o))
    ∧ (∀ i j, sepaPre m o = true → findSub (txt "Naam: ") m = some i →
        findSub (txt "Kenmerk: ") m = some j →
        memo_incasso m o = .ok (some (pySlice m (i + 6) j))) := by
  refine ⟨dispatch_incasso, fun h => ?_, fun hp hn => ?_, fun i j hp hn hk => ?_⟩
  · have h1 : memo_incasso m o = .ok none := by
      unfold memo_incasso
      rw [if_neg (by simp [h])]
    have ht : entry_type (txt "Incasso") = some (txt "Transfer") := rfl
    refine ⟨h1, ?_⟩
    simp only [pyMemo, memoBody, strategyStep, dispatch_incasso, h1, ht, Option.getD_none]
  · unfold memo_incasso
    rw [if_pos hp]
    simp only [hn]
  · unfold memo_incasso
    rw [if_pos hp]
    simp only [hn, hk]

/-- Witness: the spec's example, narrative "SEPA Incasso Naam: Jane Doe
Kenmerk: 123", yields the memo body "Jane Doe ". -/
theorem memo_incasso_spec_witness :
    memo_incasso (txt "SEPA Incasso Naam: Jane Doe Kenmerk: 123") (txt "") =
      Except.ok (some (txt "Jane Doe ")) := by
  have h := (memo_incasso_spec (txt "SEPA Incasso Naam: Jane Doe Kenmerk: 123")
      (txt "")).2.2.2 13 28 (by decide) (by decide) (by decide)
  exact h.trans (by rfl)

/-- C8 counterexample: narrative "Naam: X Omschrijving:Y IBAN: Z" contains
"Naam: " and the end marker "IBAN: " while "Omschrijving: " (with trailing
space) is absent, yet the strategy declines instead of extracting up to
"IBAN: ": the membership test is for "Omschrijving:" without the trailing
space, so the "IBAN: " arm is never reached and `index('Omschrijving: ')`
raises the `ValueError` that the strategy turns into a decline. -/
theorem memo_internetbankieren_counterexample :
    memo_internetbankieren (txt "Naam: X Omschrijving:Y IBAN: Z") (txt "") = Except.ok none
    ∧ findSub (txt "Naam: ") (txt "Naam: X Omschrijving:Y IBAN: Z") = some 0
    ∧ findSub (txt "Omschrijving: ") (txt "Naam: X Omschrijving:Y IBAN: Z") = none
    ∧ findSub (txt "IBAN: ") (txt "Naam: X Omschrijving:Y IBAN: Z") = some 23 :=
  ⟨rfl, rfl, rfl, rfl⟩

/-- C8 (amended): both kinds dispatch to `_memo_internetbankieren`; when
"Naam: " is found, the memo is the narrative substring from just after
"Naam: " to the position of "Omschrijving: " when the text "Omschrijving:"
(without trailing space) occurs in the narrative, else to the position of
"IBAN: "; the strategy declines — rather than failing — when "Naam: " is
absent, when "Omschrijving:" occurs but "Omschrijving: " with the trailing
space does not, or when the selected end marker is absent. -/
theorem memo_internetbankieren_cases (m o : Text) :
    memo_dispatch (txt "Internetbankieren") = some memo_internetbankieren
    ∧ memo_dispatch (txt "Overschrijving") = some memo_internetbankieren
    ∧ (findSub (txt "Naam: ") m = none → memo_internetbankieren m o = .ok none)
    ∧ (∀ i j, findSub (txt "Naam: ") m = some i →
        containsSub (txt "Omschrijving:") m = true →
        findSub (txt "Omschrijving: ") m = some j →
        memo_internetbankieren m o = .ok (some (pySlice m (i + 6) j)))
    ∧ (∀ i, findSub (txt "Naam: ") m = some i →
        containsSub (txt "Omschrijving:") m = true →
        findSub (txt "Omschrijving: ") m = none →
        memo_internetbankieren m o = .ok none)
    ∧ (∀ i j, findSub (txt "Naam: ") m = some i →
        containsSub (txt "Omschrijving:") m = false →
        findSub (txt "IBAN: ") m = some j →
        memo_internetbankieren m o = .ok (some (pySlice m (i + 6) j)))
    ∧ (∀ i, findSub (txt "Naam: ") m = some i →
        containsSub (txt "Omschrijving:") m = false →
        findSub (txt "IBAN: ") m = none →
        memo_internetbankieren m o = .ok none) := by
  refine ⟨dispatch_internetbankieren, dispatch_overschrijving, fun hn => ?_,
    fun i j hn hc he => ?_, fun i hn hc he => ?_, fun i j hn hc he => ?_,
    fun i hn hc he => ?_⟩
  · simp only [memo_internetbankieren, hn]
  · simp only [memo_internetbankieren, hn, hc, if_true, he]
  · simp only [memo_internetbankieren, hn, hc, if_true, he]
  · simp [memo_internetbankieren, hn, hc, he]
  · simp [memo_internetbankieren, hn, hc, he]

/-- Witness: narrative "Naam: A IBAN: B" yields the memo body "A " through
the "IBAN: " end marker. -/
theorem memo_internetbankieren_cases_witness :
    memo_internetbankieren (txt "Naam: A IBAN: B") (txt "") = Except.ok (some (txt "A ")) := by
  have h := (memo_internetbankieren_cases (txt "Naam: A IBAN: B")
      (txt "")).2.2.2.2.2.1 0 8 (by decide) (by decide) (by decide)
  exact h.trans (by rfl)

end Ing2Qif
